import Mathlib

/-!
# Verification of the `bitbucket-server-rs` client pipeline

A shallow embedding of the repository's request/response pipeline
(`src/client.rs`), the build-status and pull-request payload
(de)serialization (`src/api/build_status_post.rs`,
`src/api/pull_request_changes_get.rs`), and the endpoint builders
(`derive_builder`-generated `build()` over the structs declared in
`src/api/build_status_get.rs` and `src/api/pull_request_changes_get.rs`).

Rust side conventions used by the embedding:
* `Result<A, E>` becomes `Except E A`; `Option<T>` becomes `Option T`.
* Machine integers (`u16` status codes, `u32`/`u64` counters) become `Nat`;
  the `i64` epoch-second timestamp of `chrono::DateTime<Utc>` becomes `Int`.
* The outcome of `response.text().await` is part of the modelled response
  (`HttpResponse.body : Except Unit String`): `Except.error ()` is a stream
  error while reading the body.
* A Rust panic (`expect`) is modelled explicitly by `ExecOutcome.panicked`.
* `serde_json::from_str::<T>` is an abstract parameter
  `parse : String → Except String T` in the client pipeline, and a concrete
  function on a JSON value tree for the payload types.
-/

namespace BitbucketServerRs

/-- The error enum `ApiError` of `src/client.rs` (lines 310-340). -/
inductive ApiError where
  | RequestError
  | ResponseError
  | Unauthorized
  | HttpClientError (status : Nat) (body : String)
  | HttpServerError (status : Nat) (body : String)
  | UnexpectedResponse (status : Nat) (text : String)
  | DeserializationError (msg : String)
deriving DecidableEq, Repr

/-- The alias `ApiResponse<T> = Result<Option<T>, ApiError>` (`src/client.rs` line 288). -/
abbrev ApiResponse (T : Type) := Except ApiError (Option T)

/-- An HTTP response as the pipeline observes it: a status code and the
outcome of reading the body text (`response.text().await`);
`Except.error ()` models a stream error while reading. -/
structure HttpResponse where
  status : Nat
  body : Except Unit String
deriving Repr

/-- Rust `StatusCode::is_success()`: 200 ≤ s < 300. -/
def isSuccess (s : Nat) : Bool := 200 ≤ s && s < 300

/-- Rust `StatusCode::is_client_error()`: 400 ≤ s < 500. -/
def isClientError (s : Nat) : Bool := 400 ≤ s && s < 500

/-- Rust `StatusCode::is_server_error()`: 500 ≤ s < 600. -/
def isServerError (s : Nat) : Bool := 500 ≤ s && s < 600

/-- Rust `response.text().await.unwrap_or_default()`: the body text, or the
empty string when reading the body failed. -/
def bodyOrDefault (r : HttpResponse) : String :=
  match r.body with
  | Except.ok s => s
  | Except.error _ => ""

namespace Client

/-- Source `Client::make_api_response` (`src/client.rs` lines 270-281): empty body
is `Ok(None)`; otherwise `serde_json::from_str::<T::Output>` (the abstract
`parse`), whose failure becomes `DeserializationError` with the parser's
message. -/
def make_api_response {T : Type} (parse : String → Except String T)
    (json : String) : ApiResponse T :=
  if json.length = 0 then
    Except.ok none
  else
    match parse json with
    | Except.error e => Except.error (ApiError.DeserializationError e)
    | Except.ok data => Except.ok (some data)

/-- Source `Client::process_response` (`src/client.rs` lines 224-256): the match
arms in source order — success, 401/403, client error, server error,
catch-all. In the success arm a body-read failure is `ResponseError`; in
the 4xx/5xx/catch-all arms the body is `unwrap_or_default()`. -/
def process_response {T : Type} (parse : String → Except String T)
    (r : HttpResponse) : ApiResponse T :=
  if isSuccess r.status then
    match r.body with
    | Except.error _ => Except.error ApiError.ResponseError
    | Except.ok json => make_api_response parse json
  else if r.status = 401 ∨ r.status = 403 then
    Except.error ApiError.Unauthorized
  else if isClientError r.status then
    Except.error (ApiError.HttpClientError r.status (bodyOrDefault r))
  else if isServerError r.status then
    Except.error (ApiError.HttpServerError r.status (bodyOrDefault r))
  else
    Except.error (ApiError.UnexpectedResponse r.status
      ("Unexpected Response [" ++ toString r.status ++ "]: " ++ bodyOrDefault r))

/-- The observable outcome of a call to `Client::get` / `Client::post`:
either a returned `ApiResponse` value or a Rust panic with its message. -/
inductive ExecOutcome (T : Type) where
  | panicked (msg : String)
  | returned (r : ApiResponse T)
deriving Repr

/-- Source `Client::get` (`src/client.rs` lines 156-176).  `build` is the outcome
of `RequestBuilder::build()` (its failure is met with
`.expect("Failed to build request")`, a panic); `send` is the outcome of
`http_client.execute(req).await` (its failure is mapped to
`RequestError`). -/
def get {T : Type} (parse : String → Except String T)
    (build : Except String Unit) (send : Except Unit HttpResponse) :
    ExecOutcome T :=
  match build with
  | Except.error _ => ExecOutcome.panicked "Failed to build request"
  | Except.ok _ =>
    match send with
    | Except.error _ => ExecOutcome.returned (Except.error ApiError.RequestError)
    | Except.ok resp => ExecOutcome.returned (process_response parse resp)

/-- Source `Client::post` (`src/client.rs` lines 190-210): same build/send/classify
pipeline as `get`; `body` is the pre-serialized JSON payload, passed
through verbatim and irrelevant to the outcome classification. -/
def post {T : Type} (parse : String → Except String T) (body : String)
    (build : Except String Unit) (send : Except Unit HttpResponse) :
    ExecOutcome T :=
  match build with
  | Except.error _ => ExecOutcome.panicked "Failed to build request"
  | Except.ok _ =>
    match send with
    | Except.error _ => ExecOutcome.returned (Except.error ApiError.RequestError)
    | Except.ok resp => ExecOutcome.returned (process_response parse resp)

end Client

/-! ## JSON value model

`serde_json` works through a tree of JSON values; the payload claims are
about (de)serialization at this level.  Object fields are an ordered
association list, matching the serializers' output order and the
order-insensitive field lookup of serde's derived deserializers. -/

/-- A JSON value. -/
inductive Json where
  | str (s : String)
  | num (n : Int)
  | bool (b : Bool)
  | null
  | arr (elems : List Json)
  | obj (fields : List (String × Json))

/-- First-match field lookup in a JSON object, as serde's derived
deserializers read named fields (order-insensitive). -/
def jfind : List (String × Json) → String → Option Json
  | [], _ => none
  | (k, v) :: rest, q => if k = q then some v else jfind rest q

/-- Serialize an optional struct field: `skip_serializing_if = "Option::is_none"`
omits the key entirely when the field is `None`. -/
def optField {α : Type} (k : String) (o : Option α) (f : α → Json) :
    List (String × Json) :=
  match o with
  | none => []
  | some v => [(k, f v)]

/-- Deserialize a required `String` field. -/
def getReqStr (fields : List (String × Json)) (k : String) :
    Except String String :=
  match jfind fields k with
  | some (Json.str s) => Except.ok s
  | some _ => Except.error ("invalid type for field " ++ k)
  | none => Except.error ("missing field " ++ k)

/-- Deserialize an optional `String` field: absent or `null` is `None`
(serde's handling of `Option<String>`). -/
def getOptStr (fields : List (String × Json)) (k : String) :
    Except String (Option String) :=
  match jfind fields k with
  | none => Except.ok none
  | some Json.null => Except.ok none
  | some (Json.str s) => Except.ok (some s)
  | some _ => Except.error ("invalid type for field " ++ k)

/-- Deserialize a required unsigned-integer field (`u32`/`u64`): a negative
or non-numeric value is a type error. -/
def getReqNat (fields : List (String × Json)) (k : String) :
    Except String Nat :=
  match jfind fields k with
  | some (Json.num (Int.ofNat m)) => Except.ok m
  | some _ => Except.error ("invalid type for field " ++ k)
  | none => Except.error ("missing field " ++ k)

/-- Deserialize an optional unsigned-integer field. -/
def getOptNat (fields : List (String × Json)) (k : String) :
    Except String (Option Nat) :=
  match jfind fields k with
  | none => Except.ok none
  | some Json.null => Except.ok none
  | some (Json.num (Int.ofNat m)) => Except.ok (some m)
  | some _ => Except.error ("invalid type for field " ++ k)

/-- Deserialize an optional epoch-seconds timestamp
(`chrono::serde::ts_seconds_option` with `default`): absent or `null` is
`None`, an integer is the timestamp. -/
def getOptInt (fields : List (String × Json)) (k : String) :
    Except String (Option Int) :=
  match jfind fields k with
  | none => Except.ok none
  | some Json.null => Except.ok none
  | some (Json.num n) => Except.ok (some n)
  | some _ => Except.error ("invalid type for field " ++ k)

/-! ## Build status payloads (`src/api/build_status_post.rs`) -/

/-- The enum `BuildStatusState` (`src/api/build_status_post.rs` lines 59-71,
identical in `src/api/build_status.rs` lines 128-140): five variants with
`serde(rename)` to upper-case wire names; no `serde(other)` fallback. -/
inductive BuildStatusState where
  | Successful
  | Failed
  | InProgress
  | Cancelled
  | Unknown
deriving DecidableEq, Repr

/-- The wire name of each `BuildStatusState` variant (the `serde(rename)`
attributes). -/
def BuildStatusState.toWire : BuildStatusState → String
  | BuildStatusState.Successful => "SUCCESSFUL"
  | BuildStatusState.Failed => "FAILED"
  | BuildStatusState.InProgress => "IN_PROGRESS"
  | BuildStatusState.Cancelled => "CANCELLED"
  | BuildStatusState.Unknown => "UNKNOWN"

/-- Deserializing a `BuildStatusState` from its wire string: the serde
derive accepts exactly the five renamed variant names and rejects
everything else with an unknown-variant error (there is no `serde(other)`
or default fallback in the source enum). -/
def BuildStatusState.fromWire (s : String) : Except String BuildStatusState :=
  if s = "SUCCESSFUL" then Except.ok BuildStatusState.Successful
  else if s = "FAILED" then Except.ok BuildStatusState.Failed
  else if s = "IN_PROGRESS" then Except.ok BuildStatusState.InProgress
  else if s = "CANCELLED" then Except.ok BuildStatusState.Cancelled
  else if s = "UNKNOWN" then Except.ok BuildStatusState.Unknown
  else Except.error ("unknown variant `" ++ s ++ "`")

/-- Struct `TestResults` (`src/api/build_status_post.rs` lines 73-78): field order
failed, successful, skipped. -/
structure TestResults where
  failed : Nat
  successful : Nat
  skipped : Nat
deriving DecidableEq, Repr

def TestResults.toJson (t : TestResults) : Json :=
  Json.obj [("failed", Json.num t.failed), ("successful", Json.num t.successful),
    ("skipped", Json.num t.skipped)]

def TestResults.fromJson : Json → Except String TestResults
  | Json.obj fields => do
    let failed ← getReqNat fields "failed"
    let successful ← getReqNat fields "successful"
    let skipped ← getReqNat fields "skipped"
    Except.ok ⟨failed, successful, skipped⟩
  | _ => Except.error "invalid type: expected struct TestResults"

/-- The POST payload `BuildStatusPostPayload`
(`src/api/build_status_post.rs` lines 10-57).  `date_added` is the epoch
seconds of the `DateTime<Utc>` (its `ts_seconds_option` wire form). -/
structure BuildStatusPostPayload where
  key : String
  state : BuildStatusState
  url : String
  build_number : Option String
  date_added : Option Int
  description : Option String
  duration : Option Nat
  name : Option String
  parent : Option String
  reference : Option String
  test_results : Option TestResults
deriving DecidableEq, Repr

/-- Serde serialization of `BuildStatusPostPayload`: fields in declaration
order, renames applied (`buildNumber`, `dateAdded`, `ref`, `testResults`),
`None` fields omitted. -/
def BuildStatusPostPayload.toJson (p : BuildStatusPostPayload) : Json :=
  Json.obj ([("key", Json.str p.key), ("state", Json.str p.state.toWire),
      ("url", Json.str p.url)]
    ++ optField "buildNumber" p.build_number Json.str
    ++ optField "dateAdded" p.date_added Json.num
    ++ optField "description" p.description Json.str
    ++ optField "duration" p.duration (fun n => Json.num n)
    ++ optField "name" p.name Json.str
    ++ optField "parent" p.parent Json.str
    ++ optField "ref" p.reference Json.str
    ++ optField "testResults" p.test_results TestResults.toJson)

/-- Serde deserialization of `BuildStatusPostPayload`: named-field lookup;
`key`, `state`, `url` required, the rest optional. -/
def BuildStatusPostPayload.fromJson : Json → Except String BuildStatusPostPayload
  | Json.obj fields => do
    let key ← getReqStr fields "key"
    let state ←
      match jfind fields "state" with
      | some (Json.str s) => BuildStatusState.fromWire s
      | some _ => Except.error "invalid type for field state"
      | none => Except.error "missing field state"
    let url ← getReqStr fields "url"
    let build_number ← getOptStr fields "buildNumber"
    let date_added ← getOptInt fields "dateAdded"
    let description ← getOptStr fields "description"
    let duration ← getOptNat fields "duration"
    let name ← getOptStr fields "name"
    let parent ← getOptStr fields "parent"
    let reference ← getOptStr fields "ref"
    let test_results ←
      match jfind fields "testResults" with
      | none => Except.ok none
      | some Json.null => Except.ok none
      | some j => (TestResults.fromJson j).map some
    Except.ok ⟨key, state, url, build_number, date_added, description,
      duration, name, parent, reference, test_results⟩
  | _ => Except.error "invalid type: expected struct BuildStatusPostPayload"

/-! ## Pull request changes payload (`src/api/pull_request_changes_get.rs`) -/

/-- Struct `Path` (`src/api/pull_request_changes_get.rs` lines 49-54): one field,
serialized as `toString`. -/
structure Path where
  to_string : String
deriving DecidableEq, Repr

/-- Struct `ChangeItem` (`src/api/pull_request_changes_get.rs` lines 33-46):
`contentId`, `type`, `path`. -/
structure ChangeItem where
  content_id : String
  change_type : String
  path : Path
deriving DecidableEq, Repr

/-- Struct `PullRequestChanges` (`src/api/pull_request_changes_get.rs` lines
16-28): camelCase keys `fromHash`, `toHash`; `values` optional and omitted
when `None`. -/
structure PullRequestChanges where
  from_hash : String
  to_hash : String
  values : Option (List ChangeItem)
deriving DecidableEq, Repr

def Path.toJson (p : Path) : Json :=
  Json.obj [("toString", Json.str p.to_string)]

def Path.fromJson : Json → Except String Path
  | Json.obj fields => do
    let s ← getReqStr fields "toString"
    Except.ok ⟨s⟩
  | _ => Except.error "invalid type: expected struct Path"

def ChangeItem.toJson (c : ChangeItem) : Json :=
  Json.obj [("contentId", Json.str c.content_id),
    ("type", Json.str c.change_type), ("path", c.path.toJson)]

def ChangeItem.fromJson : Json → Except String ChangeItem
  | Json.obj fields => do
    let content_id ← getReqStr fields "contentId"
    let change_type ← getReqStr fields "type"
    let path ←
      match jfind fields "path" with
      | some j => Path.fromJson j
      | none => Except.error "missing field path"
    Except.ok ⟨content_id, change_type, path⟩
  | _ => Except.error "invalid type: expected struct ChangeItem"

/-- Element-wise deserialization of a JSON array of change items, as the
derived `Vec<ChangeItem>` deserializer visits a sequence. -/
def ChangeItem.fromJsonList : List Json → Except String (List ChangeItem)
  | [] => Except.ok []
  | j :: rest =>
    match ChangeItem.fromJson j with
    | Except.error e => Except.error e
    | Except.ok c =>
      match ChangeItem.fromJsonList rest with
      | Except.error e => Except.error e
      | Except.ok cs => Except.ok (c :: cs)

def PullRequestChanges.toJson (p : PullRequestChanges) : Json :=
  Json.obj ([("fromHash", Json.str p.from_hash), ("toHash", Json.str p.to_hash)]
    ++ optField "values" p.values (fun vs => Json.arr (vs.map ChangeItem.toJson)))

def PullRequestChanges.fromJson : Json → Except String PullRequestChanges
  | Json.obj fields => do
    let from_hash ← getReqStr fields "fromHash"
    let to_hash ← getReqStr fields "toHash"
    let values ←
      match jfind fields "values" with
      | none => Except.ok none
      | some Json.null => Except.ok none
      | some (Json.arr xs) => (ChangeItem.fromJsonList xs).map some
      | some _ => Except.error "invalid type for field values"
    Except.ok ⟨from_hash, to_hash, values⟩
  | _ => Except.error "invalid type: expected struct PullRequestChanges"

/-! ## Endpoint builders

`BuildStatusGet` and `PullRequestChangesGet` derive `derive_builder::Builder`.
The generated builder holds every field in an `Option`; `build()` takes the
fields in declaration order and returns an uninitialized-field error value
for the first required field (one without `#[builder(default)]`) that was
never supplied; fields marked `#[builder(default)]` fall back to
`Default::default()` (`None` for the `Option` fields here). -/

/-- The client configuration `Client` (`src/client.rs` lines 17-27); the
`reqwest::Client` transport handle is opaque to every claim and omitted. -/
structure ClientConfig where
  base_path : String
  api_token : String
deriving DecidableEq, Repr

/-- Struct `BuildStatusGet` (`src/api/build_status_get.rs` lines 89-106). -/
structure BuildStatusGet where
  client : ClientConfig
  project_key : String
  commit_id : String
  repository_slug : String
  key : Option String
deriving DecidableEq, Repr

/-- The `derive_builder`-generated `BuildStatusGetBuilder` staging struct:
every field `Option`-wrapped, `key` (the only `#[builder(default)]` field)
as an `Option (Option _)`. -/
structure BuildStatusGetBuilder where
  client : Option ClientConfig
  project_key : Option String
  commit_id : Option String
  repository_slug : Option String
  key : Option (Option String)
deriving DecidableEq, Repr

/-- The generated `BuildStatusGetBuilder::default()`: all fields unset. -/
def BuildStatusGetBuilder.empty : BuildStatusGetBuilder :=
  ⟨none, none, none, none, none⟩

/-- The generated `BuildStatusGetBuilder::build()`: an
`UninitializedField` error (carrying the field name) for the first missing
required field; `key` defaults to `None`. -/
def BuildStatusGetBuilder.build (b : BuildStatusGetBuilder) :
    Except String BuildStatusGet :=
  match b.client with
  | none => Except.error "client"
  | some client =>
  match b.project_key with
  | none => Except.error "project_key"
  | some project_key =>
  match b.commit_id with
  | none => Except.error "commit_id"
  | some commit_id =>
  match b.repository_slug with
  | none => Except.error "repository_slug"
  | some repository_slug =>
  Except.ok ⟨client, project_key, commit_id, repository_slug, b.key.getD none⟩

/-- Struct `PullRequestChangesGet` (`src/api/pull_request_changes_get.rs` lines
59-98): required client/path fields plus six optional query fields. -/
structure PullRequestChangesGet where
  client : ClientConfig
  project_key : String
  pull_request_id : String
  repository_slug : String
  since_id : Option String
  change_scope : Option String
  until_id : Option String
  start : Option Nat
  limit : Option Nat
  with_comments : Option Bool
deriving DecidableEq, Repr

/-- The `derive_builder`-generated `PullRequestChangesGetBuilder` staging
struct. -/
structure PullRequestChangesGetBuilder where
  client : Option ClientConfig
  project_key : Option String
  pull_request_id : Option String
  repository_slug : Option String
  since_id : Option (Option String)
  change_scope : Option (Option String)
  until_id : Option (Option String)
  start : Option (Option Nat)
  limit : Option (Option Nat)
  with_comments : Option (Option Bool)
deriving DecidableEq, Repr

/-- The generated `PullRequestChangesGetBuilder::default()`: all fields
unset. -/
def PullRequestChangesGetBuilder.empty : PullRequestChangesGetBuilder :=
  ⟨none, none, none, none, none, none, none, none, none, none⟩

/-- The generated `PullRequestChangesGetBuilder::build()`. -/
def PullRequestChangesGetBuilder.build (b : PullRequestChangesGetBuilder) :
    Except String PullRequestChangesGet :=
  match b.client with
  | none => Except.error "client"
  | some client =>
  match b.project_key with
  | none => Except.error "project_key"
  | some project_key =>
  match b.pull_request_id with
  | none => Except.error "pull_request_id"
  | some pull_request_id =>
  match b.repository_slug with
  | none => Except.error "repository_slug"
  | some repository_slug =>
  Except.ok ⟨client, project_key, pull_request_id, repository_slug,
    b.since_id.getD none, b.change_scope.getD none, b.until_id.getD none,
    b.start.getD none, b.limit.getD none, b.with_comments.getD none⟩

/-! ## Query parameter construction (`PullRequestChangesGet::send`) -/

/-- Rust `bool::to_string()` / `u32::to_string()` as used for the `start`,
`limit` and `withComments` parameter values. -/
def boolToString (b : Bool) : String := if b then "true" else "false"

/-- The query-parameter map built by `PullRequestChangesGet::send`
(`src/api/pull_request_changes_get.rs` lines 114-133): one conditional
insert per optional field, in source order.  The six keys are pairwise
distinct string literals and each is inserted at most once, so the
`HashMap` contents are faithfully represented by this association list. -/
def PullRequestChangesGet.queryParams (r : PullRequestChangesGet) :
    List (String × String) :=
  (match r.since_id with
    | some v => [("sinceId", v)]
    | none => [])
  ++ (match r.change_scope with
    | some v => [("changeScope", v)]
    | none => [])
  ++ (match r.until_id with
    | some v => [("untilId", v)]
    | none => [])
  ++ (match r.start with
    | some v => [("start", toString v)]
    | none => [])
  ++ (match r.limit with
    | some v => [("limit", toString v)]
    | none => [])
  ++ (match r.with_comments with
    | some v => [("withComments", boolToString v)]
    | none => [])

/-- The request URI built by `PullRequestChangesGet::send` (lines 109-112). -/
def PullRequestChangesGet.requestUri (r : PullRequestChangesGet) : String :=
  "api/latest/projects/" ++ r.project_key ++ "/repos/" ++ r.repository_slug
    ++ "/pull-requests/" ++ r.pull_request_id ++ "/changes"

/-! ## Helper lemmas -/

theorem string_length_eq_zero {s : String} : s.length = 0 ↔ s = "" := by
  cases s with
  | mk data =>
    simp only [String.length]
    constructor
    · intro h
      rw [List.length_eq_zero] at h
      rw [h]
    · intro h
      have : data = [] := congrArg String.data h
      simp [this]

theorem make_api_response_empty {T : Type} (parse : String → Except String T) :
    Client.make_api_response parse "" = Except.ok none := rfl

theorem make_api_response_nonempty {T : Type} (parse : String → Except String T)
    (s : String) (h : s ≠ "") :
    Client.make_api_response parse s =
      match parse s with
      | Except.error e => Except.error (ApiError.DeserializationError e)
      | Except.ok v => Except.ok (some v) := by
  unfold Client.make_api_response
  rw [if_neg]
  exact fun h0 => h (string_length_eq_zero.mp h0)

theorem process_response_success_ok {T : Type} (parse : String → Except String T)
    (r : HttpResponse) (h₁ : 200 ≤ r.status) (h₂ : r.status < 300)
    {s : String} (hb : r.body = Except.ok s) :
    Client.process_response parse r = Client.make_api_response parse s := by
  have h : isSuccess r.status = true := by simp [isSuccess, h₁, h₂]
  unfold Client.process_response
  rw [if_pos h, hb]

theorem process_response_success_err {T : Type} (parse : String → Except String T)
    (r : HttpResponse) (h₁ : 200 ≤ r.status) (h₂ : r.status < 300)
    (hb : r.body = Except.error ()) :
    Client.process_response parse r = Except.error ApiError.ResponseError := by
  have h : isSuccess r.status = true := by simp [isSuccess, h₁, h₂]
  unfold Client.process_response
  rw [if_pos h, hb]

/-- A concrete stand-in for `serde_json::from_str::<T::Output>` used by the
witnesses: it accepts exactly the string `"7"`. -/
def sampleParse : String → Except String Nat :=
  fun s => if s = "7" then Except.ok 7 else Except.error "expected value"

/-! ## Claims about the response pipeline -/

/-- C1: for every HTTP response with a status in [200,300), an empty body
text yields `Ok(None)` from `Client::get` and `Client::post`; a non-empty
body yields `Ok(Some v)` when the endpoint's parser decodes it to `v`, and
`Err(DeserializationError m)` with the parser's message `m` when decoding
fails. -/
theorem claim_C1_success_body_classification {T : Type}
    (parse : String → Except String T) (resp : HttpResponse)
    (h₁ : 200 ≤ resp.status) (h₂ : resp.status < 300) :
    (resp.body = Except.ok "" →
      Client.get parse (Except.ok ()) (Except.ok resp)
          = Client.ExecOutcome.returned (Except.ok none)
        ∧ ∀ body, Client.post parse body (Except.ok ()) (Except.ok resp)
          = Client.ExecOutcome.returned (Except.ok none))
    ∧ (∀ s v, resp.body = Except.ok s → s ≠ "" → parse s = Except.ok v →
      Client.get parse (Except.ok ()) (Except.ok resp)
          = Client.ExecOutcome.returned (Except.ok (some v))
        ∧ ∀ body, Client.post parse body (Except.ok ()) (Except.ok resp)
          = Client.ExecOutcome.returned (Except.ok (some v)))
    ∧ (∀ s m, resp.body = Except.ok s → s ≠ "" → parse s = Except.error m →
      Client.get parse (Except.ok ()) (Except.ok resp)
          = Client.ExecOutcome.returned
              (Except.error (ApiError.DeserializationError m))
        ∧ ∀ body, Client.post parse body (Except.ok ()) (Except.ok resp)
          = Client.ExecOutcome.returned
              (Except.error (ApiError.DeserializationError m))) := by
  refine ⟨fun hb => ?_, fun s v hb hne hv => ?_, fun s m hb hne hm => ?_⟩
  · have hp := process_response_success_ok parse resp h₁ h₂ hb
    rw [make_api_response_empty] at hp
    exact ⟨by simp [Client.get, hp], fun body => by simp [Client.post, hp]⟩
  · have hp := process_response_success_ok parse resp h₁ h₂ hb
    rw [make_api_response_nonempty parse s hne, hv] at hp
    exact ⟨by simp [Client.get, hp], fun body => by simp [Client.post, hp]⟩
  · have hp := process_response_success_ok parse resp h₁ h₂ hb
    rw [make_api_response_nonempty parse s hne, hm] at hp
    exact ⟨by simp [Client.get, hp], fun body => by simp [Client.post, hp]⟩

/-- Witness for C1 at concrete responses with status 200. -/
theorem claim_C1_witness :
    Client.get sampleParse (Except.ok ()) (Except.ok ⟨200, Except.ok ""⟩)
        = Client.ExecOutcome.returned (Except.ok none)
    ∧ Client.get sampleParse (Except.ok ()) (Except.ok ⟨200, Except.ok "7"⟩)
        = Client.ExecOutcome.returned (Except.ok (some 7))
    ∧ Client.post sampleParse "{}" (Except.ok ())
          (Except.ok ⟨200, Except.ok "oops"⟩)
        = Client.ExecOutcome.returned
            (Except.error (ApiError.DeserializationError "expected value")) := by
  refine ⟨?_, ?_, ?_⟩
  · exact ((claim_C1_success_body_classification sampleParse ⟨200, Except.ok ""⟩
      (by decide) (by decide)).1 rfl).1
  · exact ((claim_C1_success_body_classification sampleParse ⟨200, Except.ok "7"⟩
      (by decide) (by decide)).2.1 "7" 7 rfl (by decide) rfl).1
  · exact ((claim_C1_success_body_classification sampleParse ⟨200, Except.ok "oops"⟩
      (by decide) (by decide)).2.2 "oops" "expected value" rfl (by decide)
      rfl).2 "{}"

/-- C2: every response with status 401 or 403 yields `Err(Unauthorized)`
from `Client::get` and `Client::post`, regardless of body content (so in
particular never `HttpClientError`). -/
theorem claim_C2_unauthorized {T : Type} (parse : String → Except String T)
    (resp : HttpResponse) (h : resp.status = 401 ∨ resp.status = 403) :
    Client.get parse (Except.ok ()) (Except.ok resp)
        = Client.ExecOutcome.returned (Except.error ApiError.Unauthorized)
    ∧ ∀ body, Client.post parse body (Except.ok ()) (Except.ok resp)
        = Client.ExecOutcome.returned (Except.error ApiError.Unauthorized) := by
  have hsucc : isSuccess resp.status = false := by
    rcases h with h | h <;> simp [isSuccess, h]
  constructor
  · simp [Client.get, Client.process_response, hsucc, h]
  · intro body
    simp [Client.post, Client.process_response, hsucc, h]

/-- Witness for C2 at a concrete 401 response with a non-empty body. -/
theorem claim_C2_witness :
    Client.get sampleParse (Except.ok ())
        (Except.ok ⟨401, Except.ok "irrelevant body"⟩)
      = Client.ExecOutcome.returned (Except.error ApiError.Unauthorized) :=
  (claim_C2_unauthorized sampleParse ⟨401, Except.ok "irrelevant body"⟩
    (Or.inl rfl)).1

/-- C3: every response with a status in [400,500) other than 401/403 whose
body reads as `b` yields `Err(HttpClientError(status, b))` with the body
text preserved unmodified, from `Client::get` and from `Client::post`. -/
theorem claim_C3_http_client_error {T : Type} (parse : String → Except String T)
    (resp : HttpResponse) (h₁ : 400 ≤ resp.status) (h₂ : resp.status < 500)
    (h401 : resp.status ≠ 401) (h403 : resp.status ≠ 403)
    (b : String) (hb : resp.body = Except.ok b) :
    Client.get parse (Except.ok ()) (Except.ok resp)
        = Client.ExecOutcome.returned
            (Except.error (ApiError.HttpClientError resp.status b))
    ∧ ∀ body, Client.post parse body (Except.ok ()) (Except.ok resp)
        = Client.ExecOutcome.returned
            (Except.error (ApiError.HttpClientError resp.status b)) := by
  have hsucc : isSuccess resp.status = false := by
    simp only [isSuccess, Bool.and_eq_false_iff, decide_eq_false_iff_not]
    right
    omega
  have hce : isClientError resp.status = true := by
    simp [isClientError, h₁, h₂]
  constructor
  · simp [Client.get, Client.process_response, hsucc, hce, h401, h403,
      bodyOrDefault, hb]
  · intro body
    simp [Client.post, Client.process_response, hsucc, hce, h401, h403,
      bodyOrDefault, hb]

/-- Witness for C3 at a concrete 404 response. -/
theorem claim_C3_witness :
    Client.get sampleParse (Except.ok ())
        (Except.ok ⟨404, Except.ok "the exact body"⟩)
      = Client.ExecOutcome.returned
          (Except.error (ApiError.HttpClientError 404 "the exact body")) :=
  (claim_C3_http_client_error sampleParse ⟨404, Except.ok "the exact body"⟩
    (by decide) (by decide) (by decide) (by decide) "the exact body" rfl).1

/-- C10: `Client::make_api_response` returns `Ok(None)` exactly when the
body string is empty; a non-empty body the parser rejects yields
`Err(DeserializationError)` (never `Ok(None)`), and `Ok(Some v)` arises
only from a successful parse of a non-empty body. -/
theorem claim_C10_make_api_response_none_iff_empty {T : Type}
    (parse : String → Except String T) (s : String) :
    (Client.make_api_response parse s = Except.ok none ↔ s = "")
    ∧ (∀ m, s ≠ "" → parse s = Except.error m →
        Client.make_api_response parse s
          = Except.error (ApiError.DeserializationError m))
    ∧ (∀ v, Client.make_api_response parse s = Except.ok (some v) →
        s ≠ "" ∧ parse s = Except.ok v) := by
  by_cases hs : s = ""
  · subst hs
    refine ⟨by simp [make_api_response_empty], fun m hne _ => absurd rfl hne,
      fun v hv => ?_⟩
    rw [make_api_response_empty] at hv
    simp at hv
  · rw [make_api_response_nonempty parse s hs]
    cases hp : parse s with
    | error e =>
      refine ⟨by simp [hs], fun m _ hm => ?_, fun v hv => Except.noConfusion hv⟩
      injection hm with h
      rw [h]
    | ok v₀ =>
      refine ⟨by simp [hs], fun m _ hm => Except.noConfusion hm, fun v hv => ?_⟩
      injection hv with h1
      injection h1 with h2
      exact ⟨hs, by rw [h2]⟩

/-- Witness for C10: a whitespace-only body is non-empty, so it is a
deserialization error (with the parser's message), never `Ok(None)`. -/
theorem claim_C10_witness :
    Client.make_api_response sampleParse " "
      = Except.error (ApiError.DeserializationError "expected value") :=
  (claim_C10_make_api_response_none_iff_empty sampleParse " ").2.1
    "expected value" (by decide) rfl

/-- C5 counterexample: when building the request fails, `Client::get` hits
`.expect("Failed to build request")` — a panic — instead of returning
`Err(RequestError)` as the claim states. -/
theorem claim_C5_counterexample :
    Client.get sampleParse (Except.error "builder error: relative URL without a base")
        (Except.ok ⟨200, Except.ok ""⟩)
      = Client.ExecOutcome.panicked "Failed to build request"
    ∧ Client.get sampleParse (Except.error "builder error: relative URL without a base")
        (Except.ok ⟨200, Except.ok ""⟩)
      ≠ Client.ExecOutcome.returned (Except.error ApiError.RequestError) :=
  ⟨rfl, fun h => Client.ExecOutcome.noConfusion h⟩

/-- C5 (amended): a transport-level send failure is returned as
`Err(RequestError)` by `Client::get` and `Client::post`; a failure to
construct the request, however, panics with "Failed to build request"
(via `expect`) rather than being returned as an error value. -/
theorem claim_C5_request_error_and_build_panic {T : Type}
    (parse : String → Except String T) :
    (Client.get parse (Except.ok ()) (Except.error ())
        = Client.ExecOutcome.returned (Except.error ApiError.RequestError))
    ∧ (∀ body, Client.post parse body (Except.ok ()) (Except.error ())
        = Client.ExecOutcome.returned (Except.error ApiError.RequestError))
    ∧ (∀ msg send, Client.get parse (Except.error msg) send
        = Client.ExecOutcome.panicked "Failed to build request")
    ∧ (∀ body msg send, Client.post parse body (Except.error msg) send
        = Client.ExecOutcome.panicked "Failed to build request") :=
  ⟨rfl, fun _ => rfl, fun _ _ => rfl, fun _ _ _ => rfl⟩

/-- C6 counterexample: a 404 response whose body cannot be read does NOT
yield `Err(ResponseError)`; the client-error arm substitutes the empty
string (`unwrap_or_default`) and yields `Err(HttpClientError(404, ""))`,
so `ResponseError` is not produced irrespective of status. -/
theorem claim_C6_counterexample :
    Client.get sampleParse (Except.ok ()) (Except.ok ⟨404, Except.error ()⟩)
      = Client.ExecOutcome.returned
          (Except.error (ApiError.HttpClientError 404 ""))
    ∧ Client.get sampleParse (Except.ok ()) (Except.ok ⟨404, Except.error ()⟩)
      ≠ Client.ExecOutcome.returned (Except.error ApiError.ResponseError) := by
  constructor
  · rfl
  · intro h
    have h0 : Client.get sampleParse (Except.ok ())
        (Except.ok ⟨404, Except.error ()⟩)
      = Client.ExecOutcome.returned
          (Except.error (ApiError.HttpClientError 404 "")) := rfl
    rw [h0] at h
    injection h with h1
    injection h1 with h2
    exact ApiError.noConfusion h2

/-- C6 (amended): for every response with a 2xx status whose body cannot
be read, `Client::get` and `Client::post` return `Err(ResponseError)`, an
error distinct from `RequestError`; for non-2xx statuses a body-read
failure is not reported as `ResponseError`. -/
theorem claim_C6_response_error_on_success {T : Type}
    (parse : String → Except String T) (resp : HttpResponse)
    (h₁ : 200 ≤ resp.status) (h₂ : resp.status < 300)
    (hb : resp.body = Except.error ()) :
    Client.get parse (Except.ok ()) (Except.ok resp)
        = Client.ExecOutcome.returned (Except.error ApiError.ResponseError)
    ∧ ∀ body, Client.post parse body (Except.ok ()) (Except.ok resp)
        = Client.ExecOutcome.returned (Except.error ApiError.ResponseError) := by
  have hp := process_response_success_err parse resp h₁ h₂ hb
  exact ⟨by simp [Client.get, hp], fun body => by simp [Client.post, hp]⟩

/-- Witness for the amended C6 at a concrete 204 response whose body read
fails. -/
theorem claim_C6_witness :
    Client.get sampleParse (Except.ok ()) (Except.ok ⟨204, Except.error ()⟩)
      = Client.ExecOutcome.returned (Except.error ApiError.ResponseError) :=
  (claim_C6_response_error_on_success sampleParse ⟨204, Except.error ()⟩
    (by decide) (by decide) rfl).1

/-- C4 counterexample: deserializing the unrecognized state string
"NOT_A_STATE" fails with an unknown-variant error; it does not fall back
to the builder-default variant `Unknown` (nor any other variant) — the
source enums carry no `serde(other)` fallback. -/
theorem claim_C4_counterexample :
    BuildStatusState.fromWire "NOT_A_STATE"
      = Except.error "unknown variant `NOT_A_STATE`"
    ∧ BuildStatusState.fromWire "NOT_A_STATE"
      ≠ Except.ok BuildStatusState.Unknown :=
  ⟨rfl, fun h => Except.noConfusion h⟩

/-- C4 (amended): for every input string that is not one of the five
recognized build-state names, deserializing it as a `BuildStatusState`
fails with an unknown-variant error (which fails the whole response);
there is no default-variant fallback. -/
theorem claim_C4_unknown_state_is_error (s : String)
    (h1 : s ≠ "SUCCESSFUL") (h2 : s ≠ "FAILED") (h3 : s ≠ "IN_PROGRESS")
    (h4 : s ≠ "CANCELLED") (h5 : s ≠ "UNKNOWN") :
    BuildStatusState.fromWire s
      = Except.error ("unknown variant `" ++ s ++ "`") := by
  simp [BuildStatusState.fromWire, h1, h2, h3, h4, h5]

/-- Witness for the amended C4 at the concrete string "PENDING". -/
theorem claim_C4_witness :
    BuildStatusState.fromWire "PENDING"
      = Except.error "unknown variant `PENDING`" :=
  claim_C4_unknown_state_is_error "PENDING" (by decide) (by decide)
    (by decide) (by decide) (by decide)

/-! ## Round-trip lemmas for the payload types -/

theorem TestResults.toJson_fromJson (t : TestResults) :
    TestResults.fromJson t.toJson = Except.ok t := rfl

theorem BuildStatusState.wire_roundtrip (st : BuildStatusState) :
    BuildStatusState.fromWire st.toWire = Except.ok st := by
  cases st <;> rfl

theorem ChangeItem.fromJson_toJson (c : ChangeItem) :
    ChangeItem.fromJson c.toJson = Except.ok c := rfl

theorem ChangeItem.list_roundtrip (vs : List ChangeItem) :
    ChangeItem.fromJsonList (vs.map ChangeItem.toJson) = Except.ok vs := by
  induction vs with
  | nil => rfl
  | cons c rest ih =>
    rw [List.map_cons]
    unfold ChangeItem.fromJsonList
    rw [ChangeItem.fromJson_toJson, ih]

/-- The server-shaped JSON fixture from the repository's own
deserialization test (`src/api/build_status_post.rs`, test
`it_can_deserialize_all_fields`): the same fields a real server response
carries, in the server's key order. -/
def serverFixture : Json :=
  Json.obj [("name", Json.str "Database Matrix Tests"),
    ("key", Json.str "TEST-REP3"),
    ("parent", Json.str "TEST-REP"),
    ("state", Json.str "CANCELLED"),
    ("ref", Json.str "refs/heads/master"),
    ("testResults", Json.obj [("failed", Json.num 1),
      ("successful", Json.num 134), ("skipped", Json.num 5)]),
    ("dateAdded", Json.num 1738198923),
    ("url", Json.str "https://my-bitbucket-server.com/browse/TEST-REP3"),
    ("duration", Json.num 2154),
    ("buildNumber", Json.str "3"),
    ("description", Json.str "A description of the build goes here")]

/-- The payload value the fixture denotes (the expected value asserted by
the same test). -/
def serverFixtureValue : BuildStatusPostPayload :=
  ⟨"TEST-REP3", BuildStatusState.Cancelled,
    "https://my-bitbucket-server.com/browse/TEST-REP3", some "3",
    some 1738198923, some "A description of the build goes here", some 2154,
    some "Database Matrix Tests", some "TEST-REP", some "refs/heads/master",
    some ⟨1, 134, 5⟩⟩

/-- The field list of a JSON object (empty for non-objects). -/
def jsonObjFields : Json → List (String × Json)
  | Json.obj fs => fs
  | _ => []

/-! ## Claims about the endpoint builders and query parameters -/

/-- C7: for both endpoint builders, if any required field (client config or
required path component) was never supplied, `build()` returns a
construction-time error value (carrying the missing field's name) rather
than panicking or deferring the failure to `send()`. -/
theorem claim_C7_incomplete_builder_errors :
    (∀ b : BuildStatusGetBuilder,
      b.client = none ∨ b.project_key = none ∨ b.commit_id = none
          ∨ b.repository_slug = none →
      ∃ e, b.build = Except.error e)
    ∧ (∀ b : PullRequestChangesGetBuilder,
      b.client = none ∨ b.project_key = none ∨ b.pull_request_id = none
          ∨ b.repository_slug = none →
      ∃ e, b.build = Except.error e) := by
  constructor
  · intro b h
    cases hc : b.client with
    | none => exact ⟨"client", by simp [BuildStatusGetBuilder.build, hc]⟩
    | some c =>
      cases hp : b.project_key with
      | none =>
        exact ⟨"project_key", by simp [BuildStatusGetBuilder.build, hc, hp]⟩
      | some pk =>
        cases hm : b.commit_id with
        | none =>
          exact ⟨"commit_id", by simp [BuildStatusGetBuilder.build, hc, hp, hm]⟩
        | some ci =>
          cases hr : b.repository_slug with
          | none =>
            exact ⟨"repository_slug",
              by simp [BuildStatusGetBuilder.build, hc, hp, hm, hr]⟩
          | some rs =>
            rcases h with h | h | h | h <;> simp_all
  · intro b h
    cases hc : b.client with
    | none => exact ⟨"client", by simp [PullRequestChangesGetBuilder.build, hc]⟩
    | some c =>
      cases hp : b.project_key with
      | none =>
        exact ⟨"project_key",
          by simp [PullRequestChangesGetBuilder.build, hc, hp]⟩
      | some pk =>
        cases hm : b.pull_request_id with
        | none =>
          exact ⟨"pull_request_id",
            by simp [PullRequestChangesGetBuilder.build, hc, hp, hm]⟩
        | some prid =>
          cases hr : b.repository_slug with
          | none =>
            exact ⟨"repository_slug",
              by simp [PullRequestChangesGetBuilder.build, hc, hp, hm, hr]⟩
          | some rs =>
            rcases h with h | h | h | h <;> simp_all

/-- Witness for C7: both pristine builders (all fields unset) fail to
finalize with an error value. -/
theorem claim_C7_witness :
    (∃ e, BuildStatusGetBuilder.empty.build = Except.error e)
    ∧ (∃ e, PullRequestChangesGetBuilder.empty.build = Except.error e) :=
  ⟨claim_C7_incomplete_builder_errors.1 BuildStatusGetBuilder.empty (Or.inl rfl),
   claim_C7_incomplete_builder_errors.2 PullRequestChangesGetBuilder.empty
     (Or.inl rfl)⟩

/-- C9: with `since_id = "SINCE_ID"`, `change_scope = "SCOPE"`,
`until_id = "UNTIL_ID"`, `start = 1`, `limit = 10`,
`with_comments = true`, the query-parameter map built by
`PullRequestChangesGet::send` holds exactly the six entries
`sinceId=SINCE_ID`, `changeScope=SCOPE`, `untilId=UNTIL_ID`, `start=1`,
`limit=10`, `withComments=true` and no others; and every optional field
left unset keeps its key out of the map. -/
theorem claim_C9_query_param_map :
    (∀ client pk prid rs,
      PullRequestChangesGet.queryParams
          ⟨client, pk, prid, rs, some "SINCE_ID", some "SCOPE",
            some "UNTIL_ID", some 1, some 10, some true⟩
        = [("sinceId", "SINCE_ID"), ("changeScope", "SCOPE"),
           ("untilId", "UNTIL_ID"), ("start", "1"), ("limit", "10"),
           ("withComments", "true")])
    ∧ (∀ r : PullRequestChangesGet,
        (r.since_id = none → "sinceId" ∉ r.queryParams.map Prod.fst)
        ∧ (r.change_scope = none → "changeScope" ∉ r.queryParams.map Prod.fst)
        ∧ (r.until_id = none → "untilId" ∉ r.queryParams.map Prod.fst)
        ∧ (r.start = none → "start" ∉ r.queryParams.map Prod.fst)
        ∧ (r.limit = none → "limit" ∉ r.queryParams.map Prod.fst)
        ∧ (r.with_comments = none →
            "withComments" ∉ r.queryParams.map Prod.fst)) := by
  constructor
  · intro client pk prid rs
    rfl
  · rintro ⟨c, pk, prid, rs, si, cs, ui, st, li, wc⟩
    refine ⟨fun h => ?_, fun h => ?_, fun h => ?_, fun h => ?_, fun h => ?_,
      fun h => ?_⟩
    all_goals simp only at h
    all_goals subst h
    · rcases cs with _ | a <;> rcases ui with _ | b <;> rcases st with _ | d
        <;> rcases li with _ | e <;> rcases wc with _ | f
        <;> simp [PullRequestChangesGet.queryParams]
    · rcases si with _ | a <;> rcases ui with _ | b <;> rcases st with _ | d
        <;> rcases li with _ | e <;> rcases wc with _ | f
        <;> simp [PullRequestChangesGet.queryParams]
    · rcases si with _ | a <;> rcases cs with _ | b <;> rcases st with _ | d
        <;> rcases li with _ | e <;> rcases wc with _ | f
        <;> simp [PullRequestChangesGet.queryParams]
    · rcases si with _ | a <;> rcases cs with _ | b <;> rcases ui with _ | d
        <;> rcases li with _ | e <;> rcases wc with _ | f
        <;> simp [PullRequestChangesGet.queryParams]
    · rcases si with _ | a <;> rcases cs with _ | b <;> rcases ui with _ | d
        <;> rcases st with _ | e <;> rcases wc with _ | f
        <;> simp [PullRequestChangesGet.queryParams]
    · rcases si with _ | a <;> rcases cs with _ | b <;> rcases ui with _ | d
        <;> rcases st with _ | e <;> rcases li with _ | f
        <;> simp [PullRequestChangesGet.queryParams]

/-- Witness for C9 at a fully concrete request: the six-entry map from the
spec's scenario, and an all-unset request whose map omits the "sinceId"
key. -/
theorem claim_C9_witness :
    PullRequestChangesGet.queryParams
        ⟨⟨"https://bitbucket-server/rest", "API_TOKEN"⟩, "PROJECT_KEY",
          "PULL_REQUEST_ID", "REPOSITORY_SLUG", some "SINCE_ID", some "SCOPE",
          some "UNTIL_ID", some 1, some 10, some true⟩
      = [("sinceId", "SINCE_ID"), ("changeScope", "SCOPE"),
         ("untilId", "UNTIL_ID"), ("start", "1"), ("limit", "10"),
         ("withComments", "true")]
    ∧ "sinceId" ∉ (PullRequestChangesGet.queryParams
        ⟨⟨"https://bitbucket-server/rest", "API_TOKEN"⟩, "PROJECT_KEY",
          "PULL_REQUEST_ID", "REPOSITORY_SLUG", none, none, none, none, none,
          none⟩).map Prod.fst :=
  ⟨claim_C9_query_param_map.1 ⟨"https://bitbucket-server/rest", "API_TOKEN"⟩
      "PROJECT_KEY" "PULL_REQUEST_ID" "REPOSITORY_SLUG",
   (claim_C9_query_param_map.2
      ⟨⟨"https://bitbucket-server/rest", "API_TOKEN"⟩, "PROJECT_KEY",
        "PULL_REQUEST_ID", "REPOSITORY_SLUG", none, none, none, none, none,
        none⟩).1 rfl⟩

/-! ## C8: serialization round trips -/

/-- C8: serializing a fully-populated `BuildStatusPostPayload` or
`PullRequestChanges` to JSON and deserializing it back yields a value
equal to the original; and deserializing the server-shaped fixture then
re-serializing reproduces an equivalent document (same number of fields,
same value at every one of the eleven keys). -/
theorem claim_C8_serialization_roundtrip :
    (∀ (k u bn ds nm pa rf : String) (st : BuildStatusState) (da : Int)
        (du : Nat) (tr : TestResults),
      BuildStatusPostPayload.fromJson (BuildStatusPostPayload.toJson
          ⟨k, st, u, some bn, some da, some ds, some du, some nm, some pa,
            some rf, some tr⟩)
        = Except.ok ⟨k, st, u, some bn, some da, some ds, some du, some nm,
            some pa, some rf, some tr⟩)
    ∧ (∀ (fh th : String) (vs : List ChangeItem),
      PullRequestChanges.fromJson (PullRequestChanges.toJson ⟨fh, th, some vs⟩)
        = Except.ok ⟨fh, th, some vs⟩)
    ∧ BuildStatusPostPayload.fromJson serverFixture
        = Except.ok serverFixtureValue
    ∧ (jsonObjFields (BuildStatusPostPayload.toJson serverFixtureValue)).length
        = (jsonObjFields serverFixture).length
    ∧ jfind (jsonObjFields (BuildStatusPostPayload.toJson serverFixtureValue))
          "key" = jfind (jsonObjFields serverFixture) "key"
    ∧ jfind (jsonObjFields (BuildStatusPostPayload.toJson serverFixtureValue))
          "state" = jfind (jsonObjFields serverFixture) "state"
    ∧ jfind (jsonObjFields (BuildStatusPostPayload.toJson serverFixtureValue))
          "url" = jfind (jsonObjFields serverFixture) "url"
    ∧ jfind (jsonObjFields (BuildStatusPostPayload.toJson serverFixtureValue))
          "buildNumber" = jfind (jsonObjFields serverFixture) "buildNumber"
    ∧ jfind (jsonObjFields (BuildStatusPostPayload.toJson serverFixtureValue))
          "dateAdded" = jfind (jsonObjFields serverFixture) "dateAdded"
    ∧ jfind (jsonObjFields (BuildStatusPostPayload.toJson serverFixtureValue))
          "description" = jfind (jsonObjFields serverFixture) "description"
    ∧ jfind (jsonObjFields (BuildStatusPostPayload.toJson serverFixtureValue))
          "duration" = jfind (jsonObjFields serverFixture) "duration"
    ∧ jfind (jsonObjFields (BuildStatusPostPayload.toJson serverFixtureValue))
          "name" = jfind (jsonObjFields serverFixture) "name"
    ∧ jfind (jsonObjFields (BuildStatusPostPayload.toJson serverFixtureValue))
          "parent" = jfind (jsonObjFields serverFixture) "parent"
    ∧ jfind (jsonObjFields (BuildStatusPostPayload.toJson serverFixtureValue))
          "ref" = jfind (jsonObjFields serverFixture) "ref"
    ∧ jfind (jsonObjFields (BuildStatusPostPayload.toJson serverFixtureValue))
          "testResults" = jfind (jsonObjFields serverFixture) "testResults" := by
  refine ⟨fun k u bn ds nm pa rf st da du tr => ?_, fun fh th vs => ?_,
    rfl, rfl, rfl, rfl, rfl, rfl, rfl, rfl, rfl, rfl, rfl, rfl, rfl⟩
  · cases st <;> rfl
  · have h1 : PullRequestChanges.fromJson
        (PullRequestChanges.toJson ⟨fh, th, some vs⟩)
      = Except.bind
          (Except.map some (ChangeItem.fromJsonList (vs.map ChangeItem.toJson)))
          (fun y => Except.ok ⟨fh, th, y⟩) := rfl
    rw [h1, ChangeItem.list_roundtrip]
    rfl

end BitbucketServerRs
